import Mathlib

/-!
Shallow embedding of the `HealthAuthRecordsSimulation` class of
`health_security_simulation.py`: a permissioned record-authorization ledger
with role assignment, patient-granted consent, and hash-based replay
protection.  Python dicts are modelled as insertion-ordered association
lists, the replay set as a list with guarded membership, and each raised
exception as a typed error result carrying the state at the raise point
(the source raises before any mutation, so that state is the input state).
Identities and fingerprints are opaque comparable tokens in the source
(Python strings used as dict keys); we model them as natural numbers, with
0 playing the role of the falsy "zero address" that the source rejects.
-/

namespace HealthAuth

/-- Opaque principal identity (a Python address string in the source);
0 models the falsy empty/zero address. -/
abbrev Ident := Nat

/-- Opaque record fingerprint (`record_hash` in the source). -/
abbrev Hash := Nat

/-- Roles stored in the persons mapping; the source stores the strings
"None", "Doctor", "Patient". -/
inductive Role where
  | noRole
  | doctor
  | patient
deriving DecidableEq

/-- One entry of the `persons` dict: `{'role': ..., 'exists': ...}`. -/
structure Person where
  role : Role
  exists_ : Bool
deriving DecidableEq

/-- Lookup in an insertion-ordered association list (Python `dict.get`). -/
def lookupK {β : Type} : List (Ident × β) → Ident → Option β
  | [], _ => Option.none
  | (k, v) :: rest, key => if k = key then some v else lookupK rest key

/-- Update-or-insert in an insertion-ordered association list
(Python `d[k] = v`): replace the binding in place if the key is present,
append it otherwise. -/
def setKey {β : Type} : List (Ident × β) → Ident → β → List (Ident × β)
  | [], key, val => [(key, val)]
  | (k, v) :: rest, key, val =>
    if k = key then (key, val) :: rest else (k, v) :: setKey rest key val

/-- One ledger record, as built in `add_record`. -/
structure Record where
  id : Nat
  patient : Ident
  doctor : Ident
  hash : Hash
  time : Nat
deriving DecidableEq

/-- The mutable state of one `HealthAuthRecordsSimulation` instance. -/
structure State where
  admin : Ident
  persons : List (Ident × Person)
  access_granted : List (Ident × List (Ident × Bool))
  records : List Record
  recorded_hashes : List Hash
deriving DecidableEq

/-- Constructor `__init__(admin_addr)`: the admin exists with role "None"; every other
component starts empty. -/
def initState (admin_addr : Ident) : State :=
  { admin := admin_addr
    persons := [(admin_addr, { role := Role.noRole, exists_ := true })]
    access_granted := []
    records := []
    recorded_hashes := [] }

/-- Error kinds of the spec taxonomy; each corresponds to exactly one
exception message in the source:
`unauthorized` = "only admin" / "only doctor" / "only patient",
`invalidIdentity` = "zero address",
`invalidCounterparty` = "invalid doctor" / "invalid patient",
`accessDenied` = "access not granted by patient",
`notGranted` = "not granted",
`replayDetected` = "record hash already exists (data replay blocked)". -/
inductive Err where
  | unauthorized
  | invalidIdentity
  | invalidCounterparty
  | accessDenied
  | notGranted
  | replayDetected
deriving DecidableEq

/-- Result of one operation: on success the new state together with the
record id that `add_record` announces (`Option.none` for the other
operations); on a raised exception, the error kind together with the state
at the raise point. -/
inductive OpResult where
  | ok (s : State) (ret : Option Nat)
  | err (e : Err) (s : State)
deriving DecidableEq

/-- Check `sender != self.admin` raises "only admin" (`_only_admin`). -/
def only_admin (s : State) (sender : Ident) : Bool :=
  decide (sender = s.admin)

/-- The repeated source pattern `p and p['exists'] and p['role'] == r`,
used by `_only_doctor`, `_only_patient` and the validity checks inside
`grant_access` and `add_record`. -/
def has_role (s : State) (a : Ident) (r : Role) : Bool :=
  match lookupK s.persons a with
  | some p => p.exists_ && decide (p.role = r)
  | Option.none => false

/-- Lookup `access_granted.get(patient, default).get(doctor, False)` where the
default is the empty dict — the consent lookup of `add_record` and
`revoke_access`; absent entries read as false. -/
def is_granted (s : State) (patient_addr doctor_addr : Ident) : Bool :=
  (lookupK ((lookupK s.access_granted patient_addr).getD []) doctor_addr).getD false

/-- The state after `persons[a] = {'role': r, 'exists': True}`. -/
def register_effect (s : State) (a : Ident) (r : Role) : State :=
  { s with persons := setKey s.persons a { role := r, exists_ := true } }

/-- The state after `access_granted[sn][d] = b` (creating the inner dict
when absent, as `dict.get` with an empty default does). -/
def consent_effect (s : State) (sn d : Ident) (b : Bool) : State :=
  { s with access_granted := setKey s.access_granted sn (setKey ((lookupK s.access_granted sn).getD []) d b) }

/-- The record built by a successful `add_record`. -/
def new_record (s : State) (sn pat : Ident) (f : Hash) (now : Nat) : Record :=
  { id := s.records.length, patient := pat, doctor := sn, hash := f, time := now }

/-- The state after a successful `add_record`: the record appended, the
hash inserted into the replay set. -/
def add_effect (s : State) (sn pat : Ident) (f : Hash) (now : Nat) : State :=
  { s with records := s.records ++ [new_record s sn pat f now], recorded_hashes := f :: s.recorded_hashes }

/-- The state after a successful `change_admin`: the old admin's role is
set to "None" when its entry exists, then the new admin is installed with
a fresh roleless entry. -/
def change_admin_effect (s : State) (a : Ident) : State :=
  { s with admin := a,
           persons := setKey
             (match lookupK s.persons s.admin with
              | some p => setKey s.persons s.admin { p with role := Role.noRole }
              | Option.none => s.persons) a { role := Role.noRole, exists_ := true } }

/-- Source `register_doctor(sender, doctor_addr)`. -/
def register_doctor (s : State) (sender doctor_addr : Ident) : OpResult :=
  if !only_admin s sender then .err .unauthorized s
  else if doctor_addr = 0 then .err .invalidIdentity s
  else .ok (register_effect s doctor_addr Role.doctor) Option.none

/-- Source `register_patient(sender, patient_addr)`. -/
def register_patient (s : State) (sender patient_addr : Ident) : OpResult :=
  if !only_admin s sender then .err .unauthorized s
  else if patient_addr = 0 then .err .invalidIdentity s
  else .ok (register_effect s patient_addr Role.patient) Option.none

/-- Source `grant_access(sender, doctor_addr)`: `_only_patient`, then doctor
validity, then `access_granted[sender][doctor_addr] = True` (creating the
inner dict when absent). -/
def grant_access (s : State) (sender doctor_addr : Ident) : OpResult :=
  if !has_role s sender Role.patient then .err .unauthorized s
  else if !has_role s doctor_addr Role.doctor then .err .invalidCounterparty s
  else .ok (consent_effect s sender doctor_addr true) Option.none

/-- Source `revoke_access(sender, doctor_addr)`: `_only_patient`, then the
current-grant check, then `access_granted[sender][doctor_addr] = False`
(the entry is overwritten with False, not deleted). -/
def revoke_access (s : State) (sender doctor_addr : Ident) : OpResult :=
  if !has_role s sender Role.patient then .err .unauthorized s
  else if !is_granted s sender doctor_addr then .err .notGranted s
  else .ok (consent_effect s sender doctor_addr false) Option.none

/-- Source `add_record(sender, patient_addr, record_hash)` with the clock value
passed explicitly (`time.time()` in the source): the four checks in source
order, then append the record with `id = len(records)` and insert the hash
into the replay set. -/
def add_record (s : State) (sender patient_addr : Ident)
    (record_hash : Hash) (now : Nat) : OpResult :=
  if !has_role s sender Role.doctor then .err .unauthorized s
  else if !has_role s patient_addr Role.patient then .err .invalidCounterparty s
  else if !is_granted s patient_addr sender then .err .accessDenied s
  else if record_hash ∈ s.recorded_hashes then .err .replayDetected s
  else .ok (add_effect s sender patient_addr record_hash now) (some s.records.length)

/-- Source `change_admin(sender, new_admin)`: `_only_admin`, zero-address check,
then set the old admin's role to "None" when an entry exists, install the
new admin and overwrite its persons entry with role "None". -/
def change_admin (s : State) (sender new_admin : Ident) : OpResult :=
  if !only_admin s sender then .err .unauthorized s
  else if new_admin = 0 then .err .invalidIdentity s
  else .ok (change_admin_effect s new_admin) Option.none

/-- The operations a caller can invoke on a deployed contract. -/
inductive Op where
  | registerDoctor (sender addr : Ident)
  | registerPatient (sender addr : Ident)
  | grantAccess (sender doctor_addr : Ident)
  | revokeAccess (sender doctor_addr : Ident)
  | addRecordOp (sender patient_addr : Ident) (h : Hash) (now : Nat)
  | changeAdminOp (sender new_admin : Ident)
deriving DecidableEq

/-- Dispatch one operation against a state. -/
def dispatch (s : State) : Op → OpResult
  | .registerDoctor sn a => register_doctor s sn a
  | .registerPatient sn a => register_patient s sn a
  | .grantAccess sn d => grant_access s sn d
  | .revokeAccess sn d => revoke_access s sn d
  | .addRecordOp sn p h n => add_record s sn p h n
  | .changeAdminOp sn a => change_admin s sn a

/-- The state an operation result leaves behind (on an exception, the state
at the raise point, which the source never mutated). -/
def stateOf : OpResult → State
  | .ok s2 _ => s2
  | .err _ s2 => s2

/-- Run one operation, keeping the resulting state. -/
def apply (s : State) (o : Op) : State :=
  stateOf (dispatch s o)

/-- Run a sequence of operations from a state. -/
def exec (s : State) (ops : List Op) : State :=
  ops.foldl apply s

/-- Whether an operation raises (is reverted) on a state. -/
def opFails (s : State) (o : Op) : Bool :=
  match dispatch s o with
  | .ok _ _ => false
  | .err _ _ => true

/-- Whether the current administrator's persons entry carries role "None". -/
def admin_roleless (s : State) : Bool :=
  decide ((lookupK s.persons s.admin).map Person.role = some Role.noRole)

/-- Whether an operation is a registration aimed at the identity that is
the current administrator of the given state. -/
def regTargetsAdmin (s : State) : Op → Bool
  | .registerDoctor _ a => a == s.admin
  | .registerPatient _ a => a == s.admin
  | _ => false

/-- A sequence of operations none of which registers a role onto the
administrator current at the time of that call. -/
def safeSeq : State → List Op → Bool
  | _, [] => true
  | s, o :: rest => !regTargetsAdmin s o && safeSeq (apply s o) rest

/-! Concrete demonstration states (1 = admin, 2 = doctor, 3 = patient,
mirroring the actors of `run_simulation`) -/

/-- Admin 1 has registered doctor 2 and patient 3. -/
def baseState : State :=
  exec (initState 1) [Op.registerDoctor 1 2, Op.registerPatient 1 3]

/-- ... and patient 3 has granted access to doctor 2. -/
def grantedState : State := apply baseState (Op.grantAccess 3 2)

/-- ... and doctor 2 has recorded fingerprint 7 for patient 3. -/
def afterAddState : State := apply grantedState (Op.addRecordOp 2 3 7 0)

/-- ... and patient 3 has then revoked doctor 2's access. -/
def revokedAfterAdd : State := apply afterAddState (Op.revokeAccess 3 2)

/-- State `grantedState` after a revoke with no record written. -/
def revokedState : State := apply grantedState (Op.revokeAccess 3 2)

/-- A fresh contract whose admin 1 transferred adminship to 4. -/
def adminSwapState : State := apply (initState 1) (Op.changeAdminOp 1 4)

/-! Association-list lemmas -/

theorem lookupK_setKey_self {β : Type} (l : List (Ident × β)) (k : Ident) (v : β) :
    lookupK (setKey l k v) k = some v := by
  induction l with
  | nil => simp [setKey, lookupK]
  | cons hd tl ih =>
    obtain ⟨k0, v0⟩ := hd
    by_cases hk : k0 = k
    · subst hk; simp [setKey, lookupK]
    · simp [setKey, lookupK, hk, ih]

theorem lookupK_setKey_ne {β : Type} (l : List (Ident × β)) (k k' : Ident) (v : β)
    (h : k' ≠ k) :
    lookupK (setKey l k v) k' = lookupK l k' := by
  have hne : ¬ k = k' := fun hkk => h hkk.symm
  induction l with
  | nil => simp [setKey, lookupK, hne]
  | cons hd tl ih =>
    obtain ⟨k0, v0⟩ := hd
    by_cases hk : k0 = k
    · subst hk
      simp [setKey, lookupK, hne]
    · simp [setKey, lookupK, hk, ih]

theorem setKey_eq_of_lookupK {β : Type} (l : List (Ident × β)) (k : Ident) (v : β)
    (h : lookupK l k = some v) :
    setKey l k v = l := by
  induction l with
  | nil => simp [lookupK] at h
  | cons hd tl ih =>
    obtain ⟨k0, v0⟩ := hd
    by_cases hk : k0 = k
    · subst hk
      simp [lookupK] at h
      simp [setKey, h]
    · simp [lookupK, hk] at h
      simp [setKey, hk, ih h]

theorem setKey_setKey {β : Type} (l : List (Ident × β)) (k : Ident) (v v' : β) :
    setKey (setKey l k v) k v' = setKey l k v' := by
  induction l with
  | nil => simp [setKey]
  | cons hd tl ih =>
    obtain ⟨k0, v0⟩ := hd
    by_cases hk : k0 = k
    · subst hk; simp [setKey]
    · simp [setKey, hk, ih]

/-! Success and failure characterizations of the operations -/

theorem register_doctor_ok_iff (s : State) (sn a : Ident) (s2 : State) (r : Option Nat) :
    register_doctor s sn a = .ok s2 r ↔
      (sn = s.admin ∧ a ≠ 0 ∧ r = Option.none ∧
       s2 = register_effect s a Role.doctor) := by
  unfold register_doctor only_admin
  by_cases hs : sn = s.admin <;> by_cases ha : a = 0 <;>
    simp [hs, ha, and_comm, eq_comm]

theorem register_patient_ok_iff (s : State) (sn a : Ident) (s2 : State) (r : Option Nat) :
    register_patient s sn a = .ok s2 r ↔
      (sn = s.admin ∧ a ≠ 0 ∧ r = Option.none ∧
       s2 = register_effect s a Role.patient) := by
  unfold register_patient only_admin
  by_cases hs : sn = s.admin <;> by_cases ha : a = 0 <;>
    simp [hs, ha, and_comm, eq_comm]

theorem grant_access_ok_iff (s : State) (sn d : Ident) (s2 : State) (r : Option Nat) :
    grant_access s sn d = .ok s2 r ↔
      (has_role s sn Role.patient = true ∧ has_role s d Role.doctor = true ∧
       r = Option.none ∧ s2 = consent_effect s sn d true) := by
  unfold grant_access
  cases hp : has_role s sn Role.patient <;> cases hd : has_role s d Role.doctor <;>
    simp [eq_comm, and_comm]

theorem revoke_access_ok_iff (s : State) (sn d : Ident) (s2 : State) (r : Option Nat) :
    revoke_access s sn d = .ok s2 r ↔
      (has_role s sn Role.patient = true ∧ is_granted s sn d = true ∧
       r = Option.none ∧ s2 = consent_effect s sn d false) := by
  unfold revoke_access
  cases hp : has_role s sn Role.patient <;> cases hg : is_granted s sn d <;>
    simp [eq_comm, and_comm]

theorem add_record_ok_iff (s : State) (sn pat : Ident) (f : Hash) (now : Nat)
    (s2 : State) (r : Option Nat) :
    add_record s sn pat f now = .ok s2 r ↔
      (has_role s sn Role.doctor = true ∧ has_role s pat Role.patient = true ∧
       is_granted s pat sn = true ∧ f ∉ s.recorded_hashes ∧
       r = some s.records.length ∧ s2 = add_effect s sn pat f now) := by
  unfold add_record
  cases hd : has_role s sn Role.doctor <;>
    cases hp : has_role s pat Role.patient <;>
    by_cases hg : is_granted s pat sn = true <;>
    by_cases hm : f ∈ s.recorded_hashes <;>
    simp [hg, hm, eq_comm, and_comm]

theorem add_record_err_iff (s : State) (sn pat : Ident) (f : Hash) (now : Nat)
    (e : Err) (s2 : State) :
    add_record s sn pat f now = .err e s2 ↔
      (s2 = s ∧
        ((has_role s sn Role.doctor = false ∧ e = .unauthorized) ∨
         (has_role s sn Role.doctor = true ∧ has_role s pat Role.patient = false ∧
          e = .invalidCounterparty) ∨
         (has_role s sn Role.doctor = true ∧ has_role s pat Role.patient = true ∧
          is_granted s pat sn = false ∧ e = .accessDenied) ∨
         (has_role s sn Role.doctor = true ∧ has_role s pat Role.patient = true ∧
          is_granted s pat sn = true ∧ f ∈ s.recorded_hashes ∧ e = .replayDetected))) := by
  unfold add_record
  cases hd : has_role s sn Role.doctor <;>
    cases hp : has_role s pat Role.patient <;>
    cases hg : is_granted s pat sn <;>
    by_cases hm : f ∈ s.recorded_hashes <;>
    simp [hg, hm, eq_comm, and_comm]

theorem change_admin_ok_iff (s : State) (sn a : Ident) (s2 : State) (r : Option Nat) :
    change_admin s sn a = .ok s2 r ↔
      (sn = s.admin ∧ a ≠ 0 ∧ r = Option.none ∧ s2 = change_admin_effect s a) := by
  unfold change_admin only_admin
  by_cases hs : sn = s.admin <;> by_cases ha : a = 0 <;>
    simp [hs, ha, and_comm, eq_comm]

/-! Effect lemmas -/

theorem has_role_consent_effect (s : State) (sn d : Ident) (b : Bool) (a : Ident)
    (r : Role) :
    has_role (consent_effect s sn d b) a r = has_role s a r := rfl

theorem is_granted_consent_effect_self (s : State) (sn d : Ident) (b : Bool) :
    is_granted (consent_effect s sn d b) sn d = b := by
  simp [is_granted, consent_effect, lookupK_setKey_self]

theorem is_granted_consent_effect_frame (s : State) (sn d p q : Ident) (b : Bool)
    (h : p ≠ sn ∨ q ≠ d) :
    is_granted (consent_effect s sn d b) p q = is_granted s p q := by
  by_cases hp : p = sn
  · subst hp
    rcases h with h | h
    · exact absurd rfl h
    · simp [is_granted, consent_effect, lookupK_setKey_self,
        lookupK_setKey_ne _ _ _ _ h]
  · simp [is_granted, consent_effect, lookupK_setKey_ne _ _ _ _ hp]

theorem consent_effect_idem (s : State) (sn d : Ident) (b : Bool) :
    consent_effect (consent_effect s sn d b) sn d b = consent_effect s sn d b := by
  obtain ⟨ad, ps, ag, rs, rh⟩ := s
  simp [consent_effect, lookupK_setKey_self, setKey_setKey]

theorem has_role_ne (s : State) (a : Ident) (r r' : Role)
    (h : has_role s a r = true) (hne : r' ≠ r) :
    has_role s a r' = false := by
  unfold has_role at h ⊢
  cases hl : lookupK s.persons a with
  | none => rw [hl] at h
  | some p =>
    rw [hl] at h
    simp only [Bool.and_eq_true, decide_eq_true_eq] at h
    have hne2 : p.role ≠ r' := by rw [h.2]; exact fun hh => hne hh.symm
    simp [hne2]

theorem dispatch_err_state (s : State) (o : Op) (e : Err) (s2 : State)
    (h : dispatch s o = .err e s2) : s2 = s := by
  cases o <;>
    unfold dispatch register_doctor register_patient grant_access revoke_access
      add_record change_admin at h <;>
    (repeat' split at h) <;> simp_all

theorem recorded_hashes_mono (s : State) (o : Op) (g : Hash)
    (hg : g ∈ s.recorded_hashes) :
    g ∈ (apply s o).recorded_hashes := by
  cases o <;>
    unfold apply dispatch register_doctor register_patient grant_access
      revoke_access add_record change_admin <;>
    (repeat' split) <;>
    simp_all [stateOf, register_effect, consent_effect, add_effect,
      change_admin_effect]

theorem recorded_hashes_mono_exec (s : State) (ops : List Op) (g : Hash)
    (hg : g ∈ s.recorded_hashes) :
    g ∈ (exec s ops).recorded_hashes := by
  induction ops generalizing s with
  | nil => exact hg
  | cons o rest ih => exact ih (apply s o) (recorded_hashes_mono s o g hg)

theorem admin_roleless_step (s : State) (o : Op)
    (hs : admin_roleless s = true) (ho : regTargetsAdmin s o = false) :
    admin_roleless (apply s o) = true := by
  have hreg : ∀ (a : Ident) (r : Role), s.admin ≠ a →
      admin_roleless (register_effect s a r) = true := by
    intro a r hne
    simpa [admin_roleless, register_effect, lookupK_setKey_ne _ _ _ _ hne]
      using hs
  have hca : ∀ a : Ident, admin_roleless (change_admin_effect s a) = true := by
    intro a
    simp [admin_roleless, change_admin_effect, lookupK_setKey_self]
  cases o with
  | registerDoctor sn a =>
    have hne : s.admin ≠ a := by
      simp [regTargetsAdmin] at ho
      exact fun hh => ho hh.symm
    simp only [apply, dispatch, register_doctor]
    (repeat' split) <;> first | exact hs | exact hreg a Role.doctor hne
  | registerPatient sn a =>
    have hne : s.admin ≠ a := by
      simp [regTargetsAdmin] at ho
      exact fun hh => ho hh.symm
    simp only [apply, dispatch, register_patient]
    (repeat' split) <;> first | exact hs | exact hreg a Role.patient hne
  | grantAccess sn d =>
    simp only [apply, dispatch, grant_access]
    (repeat' split) <;> exact hs
  | revokeAccess sn d =>
    simp only [apply, dispatch, revoke_access]
    (repeat' split) <;> exact hs
  | addRecordOp sn p f n =>
    simp only [apply, dispatch, add_record]
    (repeat' split) <;> exact hs
  | changeAdminOp sn a =>
    simp only [apply, dispatch, change_admin]
    (repeat' split) <;> first | exact hs | exact hca a

theorem admin_roleless_exec (ops : List Op) :
    ∀ s : State, admin_roleless s = true → safeSeq s ops = true →
      admin_roleless (exec s ops) = true := by
  induction ops with
  | nil =>
    intro s hs _
    exact hs
  | cons o rest ih =>
    intro s hs hsafe
    have h1 : regTargetsAdmin s o = false := by
      cases hh : regTargetsAdmin s o
      · rfl
      · rw [safeSeq, hh] at hsafe
        simp at hsafe
    have h2 : safeSeq (apply s o) rest = true := by
      rw [safeSeq] at hsafe
      exact ((Bool.and_eq_true _ _).mp hsafe).2
    exact ih (apply s o) (admin_roleless_step s o hs h1) h2

/-! Claims -/

/-- Claim C1, counterexample: after fingerprint 7 was committed (the add
succeeded with id 0), a later call with the same fingerprint by the same
doctor fails with AccessDenied — not ReplayDetected — because consent was
revoked in between: the error of an earlier check takes precedence. -/
theorem replay_failure_not_always_replay_error :
    add_record grantedState 2 3 7 0 = .ok afterAddState (some 0) ∧
    (7 : Hash) ∈ revokedAfterAdd.recorded_hashes ∧
    add_record revokedAfterAdd 2 3 7 1 = .err Err.accessDenied revokedAfterAdd ∧
    Err.accessDenied ≠ Err.replayDetected := by
  decide

/-- Claim C1 (amended): once a fingerprint is in the replay set, every
subsequent add_record with it fails and appends nothing (the error result
carries the unchanged state) — with ReplayDetected exactly when the three
earlier identity/consent checks pass — and the fingerprint remains in the
replay set after any further sequence of operations (the set of recorded
fingerprints never shrinks). -/
theorem replay_protection_permanent (s : State) (f : Hash)
    (hf : f ∈ s.recorded_hashes) :
    (∀ sender pat now, ∃ e, add_record s sender pat f now = .err e s) ∧
    (∀ sender pat now, has_role s sender Role.doctor = true →
       has_role s pat Role.patient = true → is_granted s pat sender = true →
       add_record s sender pat f now = .err Err.replayDetected s) ∧
    (∀ ops, f ∈ (exec s ops).recorded_hashes) := by
  refine ⟨?_, ?_, fun ops => recorded_hashes_mono_exec s ops f hf⟩
  · intro sender pat now
    cases hd : has_role s sender Role.doctor with
    | false =>
      exact ⟨.unauthorized, by
        rw [add_record_err_iff]; exact ⟨rfl, Or.inl ⟨hd, rfl⟩⟩⟩
    | true =>
      cases hp : has_role s pat Role.patient with
      | false =>
        exact ⟨.invalidCounterparty, by
          rw [add_record_err_iff]; exact ⟨rfl, Or.inr (Or.inl ⟨hd, hp, rfl⟩)⟩⟩
      | true =>
        cases hg : is_granted s pat sender with
        | false =>
          exact ⟨.accessDenied, by
            rw [add_record_err_iff]
            exact ⟨rfl, Or.inr (Or.inr (Or.inl ⟨hd, hp, hg, rfl⟩))⟩⟩
        | true =>
          exact ⟨.replayDetected, by
            rw [add_record_err_iff]
            exact ⟨rfl, Or.inr (Or.inr (Or.inr ⟨hd, hp, hg, hf, rfl⟩))⟩⟩
  · intro sender pat now hd hp hg
    rw [add_record_err_iff]
    exact ⟨rfl, Or.inr (Or.inr (Or.inr ⟨hd, hp, hg, hf, rfl⟩))⟩

/-- Claim C1 witness: the amended replay theorem instantiated on the
concrete demonstration state that holds fingerprint 7. -/
theorem replay_protection_permanent_witness :
    add_record afterAddState 2 3 7 1 = .err Err.replayDetected afterAddState ∧
    (7 : Hash) ∈ (exec afterAddState
      [Op.revokeAccess 3 2, Op.grantAccess 3 2]).recorded_hashes := by
  obtain ⟨_, h2, h3⟩ := replay_protection_permanent afterAddState 7 (by decide)
  exact ⟨h2 2 3 1 (by decide) (by decide) (by decide),
         h3 [Op.revokeAccess 3 2, Op.grantAccess 3 2]⟩

/-- Claim C2: consent is re-evaluated on every write: add_record by a
doctor for a patient succeeds only if the consent entry for the pair is
true at the moment of the call, and after a successful revoke for the pair
a subsequent add_record by that doctor fails with AccessDenied — no
caching of a prior successful check. -/
theorem consent_rechecked_on_every_write (s : State) (pat doc : Ident) :
    (∀ s2 r f now, add_record s doc pat f now = .ok s2 r →
       is_granted s pat doc = true) ∧
    (∀ s1 r, revoke_access s pat doc = .ok s1 r →
       has_role s doc Role.doctor = true →
       ∀ f now, add_record s1 doc pat f now = .err Err.accessDenied s1) := by
  constructor
  · intro s2 r f now h
    exact ((add_record_ok_iff s doc pat f now s2 r).mp h).2.2.1
  · intro s1 r h hdoc f now
    rw [revoke_access_ok_iff] at h
    obtain ⟨hp, hg, hr, hs1⟩ := h
    subst hs1
    rw [add_record_err_iff]
    refine ⟨rfl, Or.inr (Or.inr (Or.inl ⟨?_, ?_, ?_, rfl⟩))⟩
    · rw [has_role_consent_effect]; exact hdoc
    · rw [has_role_consent_effect]; exact hp
    · exact is_granted_consent_effect_self s pat doc false

/-- Claim C2 witness. -/
theorem consent_rechecked_witness :
    is_granted grantedState 3 2 = true ∧
    add_record revokedState 2 3 7 1 = .err Err.accessDenied revokedState := by
  obtain ⟨h1, h2⟩ := consent_rechecked_on_every_write grantedState 3 2
  exact ⟨h1 afterAddState (some 0) 7 0 (by decide),
         h2 revokedState Option.none (by decide) (by decide) 7 1⟩

/-- Claim C3: add_record evaluates its four preconditions in exactly the
source order — doctor role, then patient role, then consent, then replay —
and the reported error is that of the earliest violated check: each error
kind occurs exactly when all earlier checks pass and its own check fails,
and the call succeeds exactly when all four pass. -/
theorem add_record_checks_in_order (s : State) (sn pat : Ident) (f : Hash)
    (now : Nat) :
    ((∃ s2, add_record s sn pat f now = .err Err.unauthorized s2) ↔
       has_role s sn Role.doctor = false) ∧
    ((∃ s2, add_record s sn pat f now = .err Err.invalidCounterparty s2) ↔
       (has_role s sn Role.doctor = true ∧
        has_role s pat Role.patient = false)) ∧
    ((∃ s2, add_record s sn pat f now = .err Err.accessDenied s2) ↔
       (has_role s sn Role.doctor = true ∧ has_role s pat Role.patient = true ∧
        is_granted s pat sn = false)) ∧
    ((∃ s2, add_record s sn pat f now = .err Err.replayDetected s2) ↔
       (has_role s sn Role.doctor = true ∧ has_role s pat Role.patient = true ∧
        is_granted s pat sn = true ∧ f ∈ s.recorded_hashes)) ∧
    ((∃ s2 r, add_record s sn pat f now = .ok s2 r) ↔
       (has_role s sn Role.doctor = true ∧ has_role s pat Role.patient = true ∧
        is_granted s pat sn = true ∧ f ∉ s.recorded_hashes)) := by
  refine ⟨?_, ?_, ?_, ?_, ?_⟩ <;>
    simp only [add_record_err_iff, add_record_ok_iff] <;>
    cases hd : has_role s sn Role.doctor <;>
    cases hp : has_role s pat Role.patient <;>
    cases hg : is_granted s pat sn <;>
    by_cases hm : f ∈ s.recorded_hashes <;>
    simp_all

/-- Claim C4: a precondition failure of any operation is reported as a
typed error to the immediate caller and is atomic: the state carried by
the error result is the input state, and the state after running the
failed operation equals the input state — none of the components
(admin, persons, consent matrix, records, replay set) is mutated. -/
theorem failure_atomicity (s : State) (o : Op) (e : Err) (s2 : State)
    (h : dispatch s o = .err e s2) :
    s2 = s ∧ apply s o = s := by
  have h1 := dispatch_err_state s o e s2 h
  refine ⟨h1, ?_⟩
  unfold apply
  rw [h]
  simp only [stateOf]
  exact h1

/-- Claim C4 witness: a reverted change_admin call by a non-admin leaves
the fresh contract state untouched. -/
theorem failure_atomicity_witness :
    initState 1 = initState 1 ∧
    apply (initState 1) (Op.changeAdminOp 2 2) = initState 1 :=
  failure_atomicity (initState 1) (Op.changeAdminOp 2 2) Err.unauthorized
    (initState 1) (by decide)

/-- Claim C5: a successful add_record returns id = ledger length at
insertion time, appends exactly that one record (old records untouched, so
ids are 0-based, dense and sequential), inserts the fingerprint into the
replay set, and changes no other component. -/
theorem add_record_success_effect (s s2 : State) (sn pat : Ident) (f : Hash)
    (now : Nat) (r : Option Nat)
    (h : add_record s sn pat f now = .ok s2 r) :
    r = some s.records.length ∧
    s2.records = s.records ++ [new_record s sn pat f now] ∧
    (new_record s sn pat f now).id = s.records.length ∧
    s2.records.length = s.records.length + 1 ∧
    s2.recorded_hashes = f :: s.recorded_hashes ∧
    f ∈ s2.recorded_hashes ∧
    s2.persons = s.persons ∧ s2.access_granted = s.access_granted ∧
    s2.admin = s.admin := by
  rw [add_record_ok_iff] at h
  obtain ⟨_, _, _, _, hr, hs2⟩ := h
  subst hs2
  subst hr
  simp [add_effect, new_record]

/-- Claim C5 witness. -/
theorem add_record_success_effect_witness :
    some 0 = some grantedState.records.length ∧
    afterAddState.records =
      grantedState.records ++ [new_record grantedState 2 3 7 0] ∧
    (new_record grantedState 2 3 7 0).id = grantedState.records.length ∧
    afterAddState.records.length = grantedState.records.length + 1 ∧
    afterAddState.recorded_hashes = 7 :: grantedState.recorded_hashes ∧
    (7 : Hash) ∈ afterAddState.recorded_hashes ∧
    afterAddState.persons = grantedState.persons ∧
    afterAddState.access_granted = grantedState.access_granted ∧
    afterAddState.admin = grantedState.admin :=
  add_record_success_effect grantedState afterAddState 2 3 7 0 (some 0)
    (by decide)

/-- Claim C6: change_admin by a non-admin fails with Unauthorized leaving
the state (hence the administrator identity) unchanged; a successful
change_admin is by the current admin, installs the new identity as the
administrator with an existing persons entry of role None, and sets the
outgoing administrator's entry (when one exists) to role None. -/
theorem change_admin_contract (s : State) (sender new_admin : Ident) :
    (sender ≠ s.admin →
       change_admin s sender new_admin = .err Err.unauthorized s) ∧
    (∀ s2 r, change_admin s sender new_admin = .ok s2 r →
       sender = s.admin ∧ s2.admin = new_admin ∧
       lookupK s2.persons new_admin =
         some { role := Role.noRole, exists_ := true } ∧
       ∀ p, lookupK s.persons s.admin = some p →
         (lookupK s2.persons s.admin).map Person.role = some Role.noRole) := by
  constructor
  · intro hne
    unfold change_admin only_admin
    simp [hne]
  · intro s2 r h
    rw [change_admin_ok_iff] at h
    obtain ⟨hsn, hnz, hr, hs2⟩ := h
    subst hs2
    refine ⟨hsn, rfl, ?_, ?_⟩
    · simp [change_admin_effect, lookupK_setKey_self]
    · intro p hp
      simp only [change_admin_effect, hp]
      by_cases hadm : s.admin = new_admin
      · rw [← hadm]
        simp [lookupK_setKey_self]
      · simp [lookupK_setKey_ne _ _ _ _ hadm, lookupK_setKey_self]

/-- Claim C6 witness. -/
theorem change_admin_contract_witness :
    change_admin (initState 1) 2 4 = .err Err.unauthorized (initState 1) ∧
    adminSwapState.admin = 4 ∧
    lookupK adminSwapState.persons 4 =
      some { role := Role.noRole, exists_ := true } ∧
    (lookupK adminSwapState.persons 1).map Person.role = some Role.noRole := by
  obtain ⟨hsn, hadm, hnew, hold⟩ :=
    (change_admin_contract (initState 1) 1 4).2 adminSwapState Option.none
      (by decide)
  refine ⟨(change_admin_contract (initState 1) 2 4).1 (by decide), hadm, hnew, ?_⟩
  exact hold { role := Role.noRole, exists_ := true } (by decide)

/-- Claim C7: role checks are exact at every entry point: a sender whose
registered role is Doctor fails grant_access and revoke_access (with the
"only patient" Unauthorized error), and a sender whose registered role is
Patient fails add_record with Unauthorized. -/
theorem role_checks_exact (s : State) (sender : Ident) :
    (has_role s sender Role.doctor = true →
       ∀ d, grant_access s sender d = .err Err.unauthorized s ∧
            revoke_access s sender d = .err Err.unauthorized s) ∧
    (has_role s sender Role.patient = true →
       ∀ pat f now, add_record s sender pat f now = .err Err.unauthorized s) := by
  constructor
  · intro hdoc d
    have hnp : has_role s sender Role.patient = false :=
      has_role_ne s sender Role.doctor Role.patient hdoc (by decide)
    constructor
    · unfold grant_access; simp [hnp]
    · unfold revoke_access; simp [hnp]
  · intro hpat pat f now
    have hnd : has_role s sender Role.doctor = false :=
      has_role_ne s sender Role.patient Role.doctor hpat (by decide)
    unfold add_record; simp [hnd]

/-- Claim C7 witness. -/
theorem role_checks_exact_witness :
    grant_access grantedState 2 2 = .err Err.unauthorized grantedState ∧
    revoke_access grantedState 2 2 = .err Err.unauthorized grantedState ∧
    add_record grantedState 3 3 9 0 = .err Err.unauthorized grantedState := by
  obtain ⟨h1, h2⟩ := (role_checks_exact grantedState 2).1 (by decide) 2
  exact ⟨h1, h2, (role_checks_exact grantedState 3).2 (by decide) 3 9 0⟩

/-- Claim C8: grant is idempotent: when a grant succeeds, calling it again
with no intervening revoke succeeds and returns exactly the same state
(and the same result). -/
theorem grant_access_idempotent (s s1 : State) (pat doc : Ident)
    (r : Option Nat) (h : grant_access s pat doc = .ok s1 r) :
    grant_access s1 pat doc = .ok s1 r := by
  rw [grant_access_ok_iff] at h
  obtain ⟨hp, hd, hr, hs1⟩ := h
  subst hs1
  subst hr
  rw [grant_access_ok_iff]
  refine ⟨?_, ?_, rfl, (consent_effect_idem s pat doc true).symm⟩
  · rw [has_role_consent_effect]; exact hp
  · rw [has_role_consent_effect]; exact hd

/-- Claim C8 witness. -/
theorem grant_access_idempotent_witness :
    grant_access grantedState 3 2 = .ok grantedState Option.none :=
  grant_access_idempotent baseState grantedState 3 2 Option.none (by decide)

/-- Claim C9, counterexample: the administrator can register itself as a
doctor; afterwards the identity held as administrator has role Doctor, so
the rolelessness invariant fails on a reachable state. -/
theorem admin_roleless_counterexample :
    (exec (initState 1) [Op.registerDoctor 1 1]).admin = 1 ∧
    lookupK (exec (initState 1) [Op.registerDoctor 1 1]).persons 1 =
      some { role := Role.doctor, exists_ := true } ∧
    Role.doctor ≠ Role.noRole := by
  decide

/-- Claim C9 (amended): in every state reachable from a freshly
constructed authority by operation sequences in which no registration
targets the identity that is the current administrator at the time of that
call, the administrator's persons entry exists and carries role None. -/
theorem admin_roleless_reachable (a : Ident) (ops : List Op)
    (h : safeSeq (initState a) ops = true) :
    admin_roleless (exec (initState a) ops) = true := by
  refine admin_roleless_exec ops (initState a) ?_ h
  simp [admin_roleless, initState, lookupK]

/-- Claim C9 witness. -/
theorem admin_roleless_reachable_witness :
    admin_roleless (exec (initState 1)
      [Op.registerDoctor 1 2, Op.registerPatient 1 3, Op.grantAccess 3 2,
       Op.addRecordOp 2 3 7 0, Op.changeAdminOp 1 4]) = true :=
  admin_roleless_reachable 1
    [Op.registerDoctor 1 2, Op.registerPatient 1 3, Op.grantAccess 3 2,
     Op.addRecordOp 2 3 7 0, Op.changeAdminOp 1 4] (by decide)

/-- Claim C10: a successful grant_access or revoke_access modifies only
the consent-matrix entry of its (patient, doctor) pair — persons, records,
replay set and administrator are untouched and every other consent lookup
is unchanged — and revoke_access stores the explicit value False for the
pair rather than deleting the entry. -/
theorem consent_ops_frame (s : State) (pat doc : Ident) :
    (∀ s2 r, grant_access s pat doc = .ok s2 r →
       s2.persons = s.persons ∧ s2.records = s.records ∧
       s2.recorded_hashes = s.recorded_hashes ∧ s2.admin = s.admin ∧
       is_granted s2 pat doc = true ∧
       ∀ p q, p ≠ pat ∨ q ≠ doc → is_granted s2 p q = is_granted s p q) ∧
    (∀ s2 r, revoke_access s pat doc = .ok s2 r →
       s2.persons = s.persons ∧ s2.records = s.records ∧
       s2.recorded_hashes = s.recorded_hashes ∧ s2.admin = s.admin ∧
       lookupK ((lookupK s2.access_granted pat).getD []) doc = some false ∧
       ∀ p q, p ≠ pat ∨ q ≠ doc → is_granted s2 p q = is_granted s p q) := by
  constructor
  · intro s2 r h
    rw [grant_access_ok_iff] at h
    obtain ⟨hp, hd, hr, hs2⟩ := h
    subst hs2
    exact ⟨rfl, rfl, rfl, rfl, is_granted_consent_effect_self s pat doc true,
           fun p q hpq => is_granted_consent_effect_frame s pat doc p q true hpq⟩
  · intro s2 r h
    rw [revoke_access_ok_iff] at h
    obtain ⟨hp, hg, hr, hs2⟩ := h
    subst hs2
    refine ⟨rfl, rfl, rfl, rfl, ?_,
            fun p q hpq => is_granted_consent_effect_frame s pat doc p q false hpq⟩
    simp [consent_effect, lookupK_setKey_self]

/-- Claim C10 witness. -/
theorem consent_ops_frame_witness :
    grantedState.persons = baseState.persons ∧
    is_granted grantedState 3 2 = true ∧
    is_granted grantedState 3 5 = is_granted baseState 3 5 ∧
    revokedState.recorded_hashes = grantedState.recorded_hashes ∧
    lookupK ((lookupK revokedState.access_granted 3).getD []) 2 = some false ∧
    is_granted revokedState 4 2 = is_granted grantedState 4 2 := by
  obtain ⟨g1, _, _, _, g5, g6⟩ :=
    (consent_ops_frame baseState 3 2).1 grantedState Option.none (by decide)
  obtain ⟨_, _, r3, _, r5, r6⟩ :=
    (consent_ops_frame grantedState 3 2).2 revokedState Option.none (by decide)
  exact ⟨g1, g5, g6 3 5 (Or.inr (by decide)), r3, r5, r6 4 2 (Or.inl (by decide))⟩

end HealthAuth
